import Mathlib

/-!
Shallow embedding of the hyperswitch code relevant to the claims:
the Braintree GraphQL connector transformers
(crates/router/src/connector/braintree/braintree_graphql_transformers.rs),
the admin validation helpers (crates/router/src/core/admin.rs) and the
domain payment-method data (crates/hyperswitch_domain_models/src/payment_method_data.rs).

Rust `Result<T, E>` is embedded as `Except E T`; `Option<T>` as `Option T`;
field values of type `Secret<String>` as `String` (the code only ever calls
`peek()`/clones them); the `?` operator as monadic bind in `Except`, evaluated
in the source's order.
-/

namespace Hyperswitch

/-- Payment-attempt status (`enums::AttemptStatus`). The source enum (not under
src/) has further variants; the embedding keeps the six produced by the
Braintree normalization plus `Started` as a representative pre-existing
value for frame-condition statements. -/
inductive AttemptStatus where
  | Started
  | Authorized
  | AuthorizationFailed
  | Charged
  | Failure
  | Voided
  | Pending
  deriving Repr, DecidableEq

/-- Refund status (`enums::RefundStatus`), with the variants the Braintree
normalization produces plus `ManualReview` as a representative extra value. -/
inductive RefundStatus where
  | Failure
  | ManualReview
  | Pending
  | Success
  deriving Repr, DecidableEq

/-- Rust `BraintreePaymentStatus`: the connector's 13-value payment status
enumeration (braintree_graphql_transformers.rs, lines 211-228). -/
inductive BraintreePaymentStatus where
  | Authorized
  | Authorizing
  | AuthorizedExpired
  | Failed
  | ProcessorDeclined
  | GatewayRejected
  | Voided
  | Settling
  | Settled
  | SettlementPending
  | SettlementDeclined
  | SettlementConfirmed
  | SubmittedForSettlement
  deriving Repr, DecidableEq

/-- Rust `BraintreeRefundStatus` (braintree_graphql_transformers.rs, lines 384-394). -/
inductive BraintreeRefundStatus where
  | SettlementPending
  | Settling
  | Settled
  | SubmittedForSettlement
  | Failed
  deriving Repr, DecidableEq

/-- Rust `impl From<BraintreePaymentStatus> for enums::AttemptStatus`
(braintree_graphql_transformers.rs, lines 242-256), including the
catch-all `_ => Self::Pending` arm. -/
def AttemptStatus.ofBraintreePaymentStatus : BraintreePaymentStatus → AttemptStatus
  | .Settling | .Settled => .Charged
  | .AuthorizedExpired => .AuthorizationFailed
  | .Failed | .GatewayRejected | .ProcessorDeclined | .SettlementDeclined => .Failure
  | .Authorized => .Authorized
  | .Voided => .Voided
  | _ => .Pending

/-- Rust `impl From<BraintreeRefundStatus> for enums::RefundStatus`
(braintree_graphql_transformers.rs, lines 396-405). -/
def RefundStatus.ofBraintreeRefundStatus : BraintreeRefundStatus → RefundStatus
  | .Settled | .Settling => .Success
  | .SubmittedForSettlement | .SettlementPending => .Pending
  | .Failed => .Failure

/-- The `errors::ConnectorError` variants reached by the embedded code. -/
inductive ConnectorError where
  | ResponseDeserializationFailed
  | MissingConnectorTransactionID
  | MissingConnectorRefundID
  | MissingRequiredField (field_name : String)
  | RequestEncodingFailed
  | NotImplemented (message : String)
  deriving Repr, DecidableEq

/-- Modelled from the spec: the sentinel `consts::NO_ERROR_CODE` (the consts
module is not under src/); the spec fixes the string "no error code". -/
def NO_ERROR_CODE : String := "no error code"

/-- Modelled from the spec: the sentinel `consts::NO_ERROR_MESSAGE` (the consts
module is not under src/); the spec fixes the string "no error message". -/
def NO_ERROR_MESSAGE : String := "no error message"

/-- Rust `types::ErrorResponse` as populated by this connector:
`{code, message, reason, status_code}`. -/
structure ErrorResponse where
  code : String
  message : String
  reason : Option String
  status_code : Nat
  deriving Repr, DecidableEq

/-- Rust `AdditionalErrorDetails` (braintree_graphql_transformers.rs, lines 236-240). -/
structure AdditionalErrorDetails where
  legacy_code : Option String
  deriving Repr, DecidableEq

/-- Rust `ErrorDetails` (braintree_graphql_transformers.rs, lines 230-234). -/
structure ErrorDetails where
  message : String
  extensions : Option AdditionalErrorDetails
  deriving Repr, DecidableEq

/-- Rust `get_error_response` (braintree_graphql_transformers.rs, lines 171-182).
The Rust function returns `Err(ErrorResponse { .. })`; the embedding returns
the `ErrorResponse` itself, and the callers wrap it in `Except.error`. -/
def get_error_response (error_code : Option String) (error_msg : Option String)
    (http_code : Nat) : ErrorResponse :=
  { code := error_code.getD NO_ERROR_CODE
    message := error_msg.getD NO_ERROR_MESSAGE
    reason := none
    status_code := http_code }

/-- Rust `build_error_response` (braintree_graphql_transformers.rs, lines 155-169):
code from the first entry's `extensions.legacy_code`, message from the first
entry's `message`. -/
def build_error_response (response : List ErrorDetails) (http_code : Nat) :
    ErrorResponse :=
  get_error_response
    ((response.get? 0).bind fun err_details =>
      err_details.extensions.bind fun extensions => extensions.legacy_code)
    ((response.get? 0).map fun err_details => err_details.message)
    http_code

/-- Rust `types::ResponseId` (the constructor this connector uses). -/
inductive ResponseId where
  | ConnectorTransactionId (id : String)
  | NoResponseId
  deriving Repr, DecidableEq

/-- Rust `types::PaymentsResponseData`, restricted to the two constructors the
Braintree transformers build. -/
inductive PaymentsResponseData where
  | TransactionResponse (resource_id : ResponseId)
      (redirection_data mandate_reference connector_metadata network_txn_id
        connector_response_reference_id : Option String)
  | TokenizationResponse (token : String)
  deriving Repr, DecidableEq

/-- Rust `types::RefundsResponseData`. -/
structure RefundsResponseData where
  connector_refund_id : String
  refund_status : RefundStatus
  deriving Repr, DecidableEq

/-- The envelope `types::RouterData<F, Req, Resp>`, restricted to the fields
the parsers read or write (`status`, `response`) together with representative
carried-over fields (`request`, `auth`, `connector_meta_data`) standing for
the remainder of the struct, which every parser copies with `..item.data`. -/
structure RouterDataE (Resp : Type) where
  status : AttemptStatus
  response : Except ErrorResponse Resp
  request : String
  auth : String
  connector_meta_data : Option String
  deriving Repr

/-- Rust `types::ResponseRouterData<F, R, Req, Resp>`: the wire response body,
the pre-existing envelope and the transport HTTP status code. -/
structure ResponseRouterData (R : Type) (Resp : Type) where
  response : R
  data : RouterDataE Resp
  http_code : Nat
  deriving Repr

/-- Rust `TransactionAuthChargeResponseBody` (lines 83-87). -/
structure TransactionAuthChargeResponseBody where
  id : String
  status : BraintreePaymentStatus
  deriving Repr, DecidableEq

/-- Rust `AuthChargeCreditCard` (lines 95-98). -/
structure AuthChargeCreditCard where
  transaction : Option TransactionAuthChargeResponseBody
  deriving Repr, DecidableEq

/-- Rust `DataAuthResponse` (lines 89-93). -/
structure DataAuthResponse where
  authorize_credit_card : Option AuthChargeCreditCard
  deriving Repr, DecidableEq

/-- Rust `BraintreeAuthResponse` (lines 77-81). -/
structure BraintreeAuthResponse where
  data : Option DataAuthResponse
  errors : Option (List ErrorDetails)
  deriving Repr, DecidableEq

/-- The canonical success payload built by the payment parsers
(all optional companion fields are `None` in the source). -/
def transactionResponseOf (id : String) : PaymentsResponseData :=
  .TransactionResponse (.ConnectorTransactionId id) none none none none none

/-- Inbound parser `TryFrom<ResponseRouterData<F, BraintreeAuthResponse, ..>>
for RouterData<..>` (braintree_graphql_transformers.rs, lines 100-153). -/
def braintreeAuthTryFrom (item : ResponseRouterData BraintreeAuthResponse PaymentsResponseData) :
    Except ConnectorError (RouterDataE PaymentsResponseData) :=
  match item.response.errors with
  | some errs =>
      .ok { item.data with response := .error (build_error_response errs item.http_code) }
  | none =>
    match item.response.data with
    | none => .error .ResponseDeserializationFailed
    | some transaction_info =>
      match transaction_info.authorize_credit_card with
      | none => .error .ResponseDeserializationFailed
      | some acc =>
        match acc.transaction with
        | none => .error .ResponseDeserializationFailed
        | some tx =>
          .ok { item.data with
                status := AttemptStatus.ofBraintreePaymentStatus tx.status
                response := .ok (transactionResponseOf tx.id) }

/-- Rust `DataResponse` (lines 325-329). -/
structure DataResponse where
  charge_credit_card : Option AuthChargeCreditCard
  deriving Repr, DecidableEq

/-- Rust `BraintreePaymentsResponse` (lines 319-323). -/
structure BraintreePaymentsResponse where
  data : Option DataResponse
  errors : Option (List ErrorDetails)
  deriving Repr, DecidableEq

/-- Inbound parser `TryFrom<ResponseRouterData<F, BraintreePaymentsResponse, ..>>`
(braintree_graphql_transformers.rs, lines 258-317). -/
def braintreePaymentsTryFrom
    (item : ResponseRouterData BraintreePaymentsResponse PaymentsResponseData) :
    Except ConnectorError (RouterDataE PaymentsResponseData) :=
  match item.response.errors with
  | some errs =>
      .ok { item.data with response := .error (build_error_response errs item.http_code) }
  | none =>
    match item.response.data with
    | none => .error .ResponseDeserializationFailed
    | some transaction_info =>
      match transaction_info.charge_credit_card with
      | none => .error .ResponseDeserializationFailed
      | some ccc =>
        match ccc.transaction with
        | none => .error .ResponseDeserializationFailed
        | some tx =>
          .ok { item.data with
                status := AttemptStatus.ofBraintreePaymentStatus tx.status
                response := .ok (transactionResponseOf tx.id) }

/-- Rust `BraintreeRefundTransactionBody` (lines 407-411). -/
structure BraintreeRefundTransactionBody where
  id : String
  status : BraintreeRefundStatus
  deriving Repr, DecidableEq

/-- Rust `BraintreeRefundTransaction` (lines 413-416). -/
structure BraintreeRefundTransaction where
  refund : Option BraintreeRefundTransactionBody
  deriving Repr, DecidableEq

/-- Rust `BraintreeRefundResponseData` (lines 418-422). -/
structure BraintreeRefundResponseData where
  refund_transaction : Option BraintreeRefundTransaction
  deriving Repr, DecidableEq

/-- Rust `BraintreeRefundResponse` (lines 424-428). -/
structure BraintreeRefundResponse where
  data : Option BraintreeRefundResponseData
  errors : Option (List ErrorDetails)
  deriving Repr, DecidableEq

/-- Inbound parser `TryFrom<RefundsResponseRouterData<api::Execute,
BraintreeRefundResponse>>` (braintree_graphql_transformers.rs, lines 430-474). -/
def braintreeRefundExecuteTryFrom
    (item : ResponseRouterData BraintreeRefundResponse RefundsResponseData) :
    Except ConnectorError (RouterDataE RefundsResponseData) :=
  match item.response.errors with
  | some errs =>
      .ok { item.data with response := .error (build_error_response errs item.http_code) }
  | none =>
    match item.response.data with
    | none => .error .ResponseDeserializationFailed
    | some refund_info =>
      match refund_info.refund_transaction with
      | none => .error .ResponseDeserializationFailed
      | some rt =>
        match rt.refund with
        | none => .error .ResponseDeserializationFailed
        | some refund_data =>
          .ok { item.data with
                response := .ok
                  { connector_refund_id := refund_data.id
                    refund_status := RefundStatus.ofBraintreeRefundStatus refund_data.status } }

/-- Rust `RSyncNodeData` (lines 494-498). -/
structure RSyncNodeData where
  id : String
  status : BraintreeRefundStatus
  deriving Repr, DecidableEq

/-- Rust `RSyncEdgeData` (lines 500-503). -/
structure RSyncEdgeData where
  node : RSyncNodeData
  deriving Repr, DecidableEq

/-- Rust `RefundData` (lines 505-508). -/
structure RefundData where
  edges : List RSyncEdgeData
  deriving Repr, DecidableEq

/-- Rust `RSyncSearchData` (lines 510-513). -/
structure RSyncSearchData where
  refunds : Option RefundData
  deriving Repr, DecidableEq

/-- Rust `RSyncResponseData` (lines 515-518). -/
structure RSyncResponseData where
  search : Option RSyncSearchData
  deriving Repr, DecidableEq

/-- Rust `BraintreeRSyncResponse` (lines 520-524). -/
structure BraintreeRSyncResponse where
  data : Option RSyncResponseData
  errors : Option (List ErrorDetails)
  deriving Repr, DecidableEq

/-- Inbound parser `TryFrom<RefundsResponseRouterData<api::RSync,
BraintreeRSyncResponse>>` (braintree_graphql_transformers.rs, lines 526-570). -/
def braintreeRSyncTryFrom
    (item : ResponseRouterData BraintreeRSyncResponse RefundsResponseData) :
    Except ConnectorError (RouterDataE RefundsResponseData) :=
  match item.response.errors with
  | some errs =>
      .ok { item.data with response := .error (build_error_response errs item.http_code) }
  | none =>
    match item.response.data with
    | none => .error .ResponseDeserializationFailed
    | some d =>
      match d.search with
      | none => .error .ResponseDeserializationFailed
      | some s =>
        match s.refunds with
        | none => .error .ResponseDeserializationFailed
        | some r =>
          match r.edges with
          | [] => .error .MissingConnectorRefundID
          | edge_data :: _ =>
            .ok { item.data with
                  response := .ok
                    { connector_refund_id := edge_data.node.id
                      refund_status :=
                        RefundStatus.ofBraintreeRefundStatus edge_data.node.status } }

/-- Rust `TokenizePaymentMethodData` (lines 626-629). -/
structure TokenizePaymentMethodData where
  id : String
  deriving Repr, DecidableEq

/-- Rust `TokenizeCreditCardData` (lines 631-635). -/
structure TokenizeCreditCardData where
  payment_method : Option TokenizePaymentMethodData
  deriving Repr, DecidableEq

/-- Rust `TokenizeCreditCard` (lines 637-641). -/
structure TokenizeCreditCard where
  tokenize_credit_card : Option TokenizeCreditCardData
  deriving Repr, DecidableEq

/-- Rust `BraintreeTokenResponse` (lines 643-647). -/
structure BraintreeTokenResponse where
  data : Option TokenizeCreditCard
  errors : Option (List ErrorDetails)
  deriving Repr, DecidableEq

/-- Inbound parser `TryFrom<ResponseRouterData<F, BraintreeTokenResponse, ..>>`
(braintree_graphql_transformers.rs, lines 649-685). Note that an absent
`data` here fails with `MissingConnectorTransactionID` (line 671). -/
def braintreeTokenTryFrom
    (item : ResponseRouterData BraintreeTokenResponse PaymentsResponseData) :
    Except ConnectorError (RouterDataE PaymentsResponseData) :=
  match item.response.errors with
  | some errs =>
      .ok { item.data with response := .error (build_error_response errs item.http_code) }
  | none =>
    match item.response.data with
    | none => .error .MissingConnectorTransactionID
    | some d =>
      match d.tokenize_credit_card with
      | none => .error .ResponseDeserializationFailed
      | some tcc =>
        match tcc.payment_method with
        | none => .error .ResponseDeserializationFailed
        | some pm =>
          .ok { item.data with response := .ok (.TokenizationResponse pm.id) }

/-- Rust `CaptureResponseTransactionBody` (lines 730-734). -/
structure CaptureResponseTransactionBody where
  id : String
  status : BraintreePaymentStatus
  deriving Repr, DecidableEq

/-- Rust `CaptureTransactionData` (lines 736-739). -/
structure CaptureTransactionData where
  transaction : Option CaptureResponseTransactionBody
  deriving Repr, DecidableEq

/-- Rust `CaptureResponseData` (lines 741-745). -/
structure CaptureResponseData where
  capture_transaction : Option CaptureTransactionData
  deriving Repr, DecidableEq

/-- Rust `BraintreeCaptureResponse` (lines 747-751). -/
structure BraintreeCaptureResponse where
  data : Option CaptureResponseData
  errors : Option (List ErrorDetails)
  deriving Repr, DecidableEq

/-- Inbound parser `TryFrom<PaymentsCaptureResponseRouterData<BraintreeCaptureResponse>>`
(braintree_graphql_transformers.rs, lines 753-808). -/
def braintreeCaptureTryFrom
    (item : ResponseRouterData BraintreeCaptureResponse PaymentsResponseData) :
    Except ConnectorError (RouterDataE PaymentsResponseData) :=
  match item.response.errors with
  | some errs =>
      .ok { item.data with response := .error (build_error_response errs item.http_code) }
  | none =>
    match item.response.data with
    | none => .error .ResponseDeserializationFailed
    | some transaction_info =>
      match transaction_info.capture_transaction with
      | none => .error .ResponseDeserializationFailed
      | some ct =>
        match ct.transaction with
        | none => .error .ResponseDeserializationFailed
        | some tx =>
          .ok { item.data with
                status := AttemptStatus.ofBraintreePaymentStatus tx.status
                response := .ok (transactionResponseOf tx.id) }

/-- Rust `CancelResponseTransactionBody` (lines 840-844). -/
structure CancelResponseTransactionBody where
  id : String
  status : BraintreePaymentStatus
  deriving Repr, DecidableEq

/-- Rust `CancelTransactionData` (lines 846-849). -/
structure CancelTransactionData where
  reversal : Option CancelResponseTransactionBody
  deriving Repr, DecidableEq

/-- Rust `CancelResponseData` (lines 851-855). -/
structure CancelResponseData where
  reverse_transaction : Option CancelTransactionData
  deriving Repr, DecidableEq

/-- Rust `BraintreeCancelResponse` (lines 857-861). -/
structure BraintreeCancelResponse where
  data : Option CancelResponseData
  errors : Option (List ErrorDetails)
  deriving Repr, DecidableEq

/-- Inbound parser `TryFrom<ResponseRouterData<F, BraintreeCancelResponse, ..>>`
(braintree_graphql_transformers.rs, lines 863-917). -/
def braintreeCancelTryFrom
    (item : ResponseRouterData BraintreeCancelResponse PaymentsResponseData) :
    Except ConnectorError (RouterDataE PaymentsResponseData) :=
  match item.response.errors with
  | some errs =>
      .ok { item.data with response := .error (build_error_response errs item.http_code) }
  | none =>
    match item.response.data with
    | none => .error .ResponseDeserializationFailed
    | some void_info =>
      match void_info.reverse_transaction with
      | none => .error .ResponseDeserializationFailed
      | some rt =>
        match rt.reversal with
        | none => .error .ResponseDeserializationFailed
        | some void_data =>
          .ok { item.data with
                status := AttemptStatus.ofBraintreePaymentStatus void_data.status
                response := .ok (transactionResponseOf void_data.id) }

/-- Rust `NodeData` (lines 937-941). -/
structure NodeData where
  id : String
  status : BraintreePaymentStatus
  deriving Repr, DecidableEq

/-- Rust `EdgeData` (lines 943-946). -/
structure EdgeData where
  node : NodeData
  deriving Repr, DecidableEq

/-- Rust `TransactionData` (lines 948-951). -/
structure TransactionData where
  edges : List EdgeData
  deriving Repr, DecidableEq

/-- Rust `SearchData` (lines 953-956). -/
structure SearchData where
  transactions : Option TransactionData
  deriving Repr, DecidableEq

/-- Rust `PSyncResponseData` (lines 958-961). -/
structure PSyncResponseData where
  search : Option SearchData
  deriving Repr, DecidableEq

/-- Rust `BraintreePSyncResponse` (lines 963-967). -/
structure BraintreePSyncResponse where
  data : Option PSyncResponseData
  errors : Option (List ErrorDetails)
  deriving Repr, DecidableEq

/-- Inbound parser `TryFrom<ResponseRouterData<F, BraintreePSyncResponse, ..>>`
(braintree_graphql_transformers.rs, lines 969-1020). -/
def braintreePSyncTryFrom
    (item : ResponseRouterData BraintreePSyncResponse PaymentsResponseData) :
    Except ConnectorError (RouterDataE PaymentsResponseData) :=
  match item.response.errors with
  | some errs =>
      .ok { item.data with response := .error (build_error_response errs item.http_code) }
  | none =>
    match item.response.data with
    | none => .error .ResponseDeserializationFailed
    | some d =>
      match d.search with
      | none => .error .ResponseDeserializationFailed
      | some s =>
        match s.transactions with
        | none => .error .ResponseDeserializationFailed
        | some t =>
          match t.edges with
          | [] => .error .MissingConnectorTransactionID
          | edge_data :: _ =>
            .ok { item.data with
                  status := AttemptStatus.ofBraintreePaymentStatus edge_data.node.status
                  response := .ok (transactionResponseOf edge_data.node.id) }

/-- Currency codes (`enums::Currency`): the source enumeration (not under
src/) is large; the embedding keeps a representative sample, since the code
in scope only stores and compares currency values. -/
inductive Currency where
  | USD
  | EUR
  | GBP
  | INR
  deriving Repr, DecidableEq

/-- Rust `BraintreeMeta` (braintree_graphql_transformers.rs, lines 30-34). -/
structure BraintreeMeta where
  merchant_account_id : Option String
  merchant_config_currency : Option Currency
  deriving Repr, DecidableEq

/-- Rust `TransactionBody` (lines 36-41). -/
structure TransactionBody where
  amount : String
  merchant_account_id : String
  deriving Repr, DecidableEq

/-- Rust `PaymentInput` (lines 12-17). -/
structure PaymentInput where
  payment_method_id : String
  transaction : TransactionBody
  deriving Repr, DecidableEq

/-- Rust `VariablePaymentInput` (lines 19-22). -/
structure VariablePaymentInput where
  input : PaymentInput
  deriving Repr, DecidableEq

/-- Rust `BraintreePaymentsRequest` (lines 24-28). -/
structure BraintreePaymentsRequest where
  query : String
  «variables» : VariablePaymentInput
  deriving Repr, DecidableEq

/-- The `chargeCreditCard` mutation string (line 52 of the source, verbatim;
braces escaped). -/
def CHARGE_CREDIT_CARD_QUERY : String :=
  "mutation ChargeCreditCard($input: ChargeCreditCardInput!) \x7b chargeCreditCard(input: $input) \x7b transaction \x7b id legacyId createdAt amount \x7b value currencyCode \x7d status \x7d \x7d \x7d"

/-- The `authorizeCreditCard` mutation string (line 53 of the source, verbatim;
braces escaped). -/
def AUTHORIZE_CREDIT_CARD_QUERY : String :=
  "mutation authorizeCreditCard($input: AuthorizeCreditCardInput!) \x7b authorizeCreditCard(input: $input) \x7b  transaction \x7b id legacyId amount \x7b value currencyCode \x7d status \x7d \x7d \x7d"

/-- Outbound builder `TryFrom<&types::PaymentsAuthorizeRouterData> for
BraintreePaymentsRequest` (braintree_graphql_transformers.rs, lines 43-75).
The helper calls that live outside src/ are passed in as their observed
outcomes, in the order the source evaluates them:
`utils::to_connector_meta_from_secret` (the `metadata` argument),
`utils::validate_currency`, `item.request.is_auto_capture()`,
`item.get_payment_method_token()` and `utils::to_currency_base_unit`. -/
def braintreePaymentsRequestTryFrom
    (metadata : Except ConnectorError BraintreeMeta)
    (validate_currency : Except ConnectorError Unit)
    (is_auto_capture : Except ConnectorError Bool)
    (payment_method_token : Except ConnectorError String)
    (amount_base_unit : Except ConnectorError String) :
    Except ConnectorError BraintreePaymentsRequest := do
  let metadata ← metadata
  let _ ← validate_currency
  let query :=
    match (← is_auto_capture) with
    | true => CHARGE_CREDIT_CARD_QUERY
    | false => AUTHORIZE_CREDIT_CARD_QUERY
  let payment_method_id ← payment_method_token
  let amount ← amount_base_unit
  let merchant_account_id ←
    match metadata.merchant_account_id with
    | some v => Except.ok v
    | none => Except.error (ConnectorError.MissingRequiredField "merchant_account_id")
  Except.ok
    { query
      «variables» :=
        { input :=
            { payment_method_id
              transaction := { amount, merchant_account_id } } } }

/-- Rust `RefundInputData` (lines 331-336). -/
structure RefundInputData where
  amount : String
  merchant_account_id : String
  deriving Repr, DecidableEq

/-- Rust `BraintreeRefundInput` (lines 338-343). -/
structure BraintreeRefundInput where
  transaction_id : String
  refund : RefundInputData
  deriving Repr, DecidableEq

/-- Rust `BraintreeRefundVariables` (lines 345-348). -/
structure BraintreeRefundVariables where
  input : BraintreeRefundInput
  deriving Repr, DecidableEq

/-- Rust `BraintreeRefundRequest` (lines 350-354). -/
structure BraintreeRefundRequest where
  query : String
  «variables» : BraintreeRefundVariables
  deriving Repr, DecidableEq

/-- The `refundTransaction` mutation string (line 363 of the source, verbatim;
braces escaped). -/
def REFUND_TRANSACTION_QUERY : String :=
  "mutation refundTransaction($input:  RefundTransactionInput!) \x7b refundTransaction(input: $input) \x7bclientMutationId refund \x7b id legacyId amount \x7b value currencyCode \x7d status \x7d \x7d \x7d"

/-- Outbound builder `TryFrom<&types::RefundsRouterData<F>> for
BraintreeRefundRequest` (braintree_graphql_transformers.rs, lines 356-382).
As for the authorize builder, helper calls outside src/ are passed in as
their observed outcomes, in source evaluation order. -/
def braintreeRefundRequestTryFrom
    (metadata : Except ConnectorError BraintreeMeta)
    (validate_currency : Except ConnectorError Unit)
    (connector_transaction_id : String)
    (amount_base_unit : Except ConnectorError String) :
    Except ConnectorError BraintreeRefundRequest := do
  let metadata ← metadata
  let _ ← validate_currency
  let query := REFUND_TRANSACTION_QUERY
  let amount ← amount_base_unit
  let merchant_account_id ←
    match metadata.merchant_account_id with
    | some v => Except.ok v
    | none => Except.error (ConnectorError.MissingRequiredField "merchant_account_id")
  Except.ok
    { query
      «variables» :=
        { input :=
            { transaction_id := connector_transaction_id
              refund := { amount, merchant_account_id } } } }

/-- Connector status (`api_enums::ConnectorStatus`). -/
inductive ConnectorStatus where
  | Active
  | Inactive
  deriving Repr, DecidableEq

/-- The `errors::ApiErrorResponse` variants reached by the embedded admin
validators. -/
inductive ApiErrorResponse where
  | InvalidRequestData (message : String)
  | InvalidDataFormat (field_name : String) (expected_format : String)
  deriving Repr, DecidableEq

/-- Rust `ConnectorAuthType` (hyperswitch_domain_models::router_data, matched
exhaustively by `validate_connector_auth_type`); `Secret<String>` fields are
embedded as `String` (the validator only calls `peek()`), and the
`HashMap<Currency, SecretSerdeValue>` of `CurrencyAuthKey` as an association
list whose emptiness mirrors the map's. -/
inductive ConnectorAuthType where
  | TemporaryAuth
  | HeaderKey (api_key : String)
  | BodyKey (api_key key1 : String)
  | SignatureKey (api_key key1 api_secret : String)
  | MultiAuthKey (api_key key1 api_secret key2 : String)
  | CurrencyAuthKey (auth_key_map : List (Currency × String))
  | CertificateAuth (certificate private_key : String)
  | NoKey
  deriving Repr, DecidableEq

/-- The closure `validate_non_empty_field` inside `validate_connector_auth_type`
(admin.rs, lines 2680-2690): rejects a field that is empty after trimming. -/
def validate_non_empty_field (field_value : String) (field_name : String) :
    Except ApiErrorResponse Unit :=
  if field_value.trim.isEmpty then
    Except.error (ApiErrorResponse.InvalidDataFormat
      ("connector_account_details." ++ field_name) "a non empty String")
  else Except.ok ()

/-- Rust `validate_connector_auth_type` (admin.rs, lines 2677-2753). The helper
`helpers::create_identity_from_certificate_and_key` is not under src/; it is
passed as a Boolean-valued parameter (`true` exactly when the certificate and
private key parse into a valid identity pair), per the spec. -/
def validate_connector_auth_type
    (create_identity_from_certificate_and_key : String → String → Bool) :
    ConnectorAuthType → Except ApiErrorResponse Unit
  | .TemporaryAuth => Except.ok ()
  | .HeaderKey api_key => validate_non_empty_field api_key "api_key"
  | .BodyKey api_key key1 =>
      match validate_non_empty_field api_key "api_key" with
      | Except.error e => Except.error e
      | Except.ok _ => validate_non_empty_field key1 "key1"
  | .SignatureKey api_key key1 api_secret =>
      match validate_non_empty_field api_key "api_key" with
      | Except.error e => Except.error e
      | Except.ok _ =>
        match validate_non_empty_field key1 "key1" with
        | Except.error e => Except.error e
        | Except.ok _ => validate_non_empty_field api_secret "api_secret"
  | .MultiAuthKey api_key key1 api_secret key2 =>
      match validate_non_empty_field api_key "api_key" with
      | Except.error e => Except.error e
      | Except.ok _ =>
        match validate_non_empty_field key1 "key1" with
        | Except.error e => Except.error e
        | Except.ok _ =>
          match validate_non_empty_field api_secret "api_secret" with
          | Except.error e => Except.error e
          | Except.ok _ => validate_non_empty_field key2 "key2"
  | .CurrencyAuthKey auth_key_map =>
      if auth_key_map.isEmpty then
        Except.error (ApiErrorResponse.InvalidDataFormat
          "connector_account_details.auth_key_map" "a non empty map")
      else Except.ok ()
  | .CertificateAuth certificate private_key =>
      if create_identity_from_certificate_and_key certificate private_key then
        Except.ok ()
      else
        Except.error (ApiErrorResponse.InvalidDataFormat
          "connector_account_details.certificate or connector_account_details.private_key"
          "a valid base64 encoded string of PEM encoded Certificate and Private Key")
  | .NoKey => Except.ok ()

/-- Rust `validate_status_and_disabled` (admin.rs, lines 2792-2824). -/
def validate_status_and_disabled (status : Option ConnectorStatus)
    (disabled : Option Bool) (auth : ConnectorAuthType)
    (current_status : ConnectorStatus) :
    Except ApiErrorResponse (ConnectorStatus × Option Bool) := do
  let connector_status ←
    match status, auth with
    | some ConnectorStatus.Active, ConnectorAuthType.TemporaryAuth =>
        Except.error (ApiErrorResponse.InvalidRequestData
          "Connector status cannot be active when using TemporaryAuth")
    | some s, _ => Except.ok s
    | none, ConnectorAuthType.TemporaryAuth => Except.ok ConnectorStatus.Inactive
    | none, _ => Except.ok current_status
  let disabled ←
    match disabled, connector_status with
    | some false, ConnectorStatus.Inactive =>
        Except.error (ApiErrorResponse.InvalidRequestData
          "Connector cannot be enabled when connector_status is inactive or when using TemporaryAuth")
    | some d, _ => Except.ok (some d)
    | none, ConnectorStatus.Inactive => Except.ok (some true)
    | none, _ => Except.ok none
  Except.ok (connector_status, disabled)

/-- Rust `Card` (payment_method_data.rs, lines 57-69); `Secret<String>` and
`CardNetwork` values embedded as `String`. -/
structure Card where
  card_number : String
  card_exp_month : String
  card_exp_year : String
  card_cvc : String
  card_issuer : Option String
  card_network : Option String
  card_type : Option String
  card_issuing_country : Option String
  bank_code : Option String
  nick_name : Option String
  deriving Repr, DecidableEq

/-- Rust `CardRedirectData` (payment_method_data.rs, lines 71-77). -/
inductive CardRedirectData where
  | Knet
  | Benefit
  | MomoAtm
  | CardRedirect
  deriving Repr, DecidableEq

/-- Rust `WalletData` (payment_method_data.rs, lines 92-120): a 27-variant
enum whose content no embedded operation inspects (`get_payment_method`
matches `Self::Wallet(_)`); embedded as an uninterpreted payload. -/
structure WalletData where
  payload : String
  deriving Repr, DecidableEq

/-- Rust `PayLaterData` (payment_method_data.rs, lines 80-89). -/
inductive PayLaterData where
  | KlarnaRedirect
  | KlarnaSdk (token : String)
  | AffirmRedirect
  | AfterpayClearpayRedirect
  | PayBrightRedirect
  | WalleyRedirect
  | AlmaRedirect
  | AtomeRedirect
  deriving Repr, DecidableEq

/-- Rust `BankRedirectData` (payment_method_data.rs): content never inspected
by `get_payment_method` (matches `Self::BankRedirect(_)`); embedded as an
uninterpreted payload. -/
structure BankRedirectData where
  payload : String
  deriving Repr, DecidableEq

/-- Rust `BankDebitData` (payment_method_data.rs, lines 414-447): content
never inspected here; embedded as an uninterpreted payload. -/
structure BankDebitData where
  payload : String
  deriving Repr, DecidableEq

/-- Rust `BankTransferData` (payment_method_data.rs): content never inspected
here; embedded as an uninterpreted payload (the `Box` is immaterial). -/
structure BankTransferData where
  payload : String
  deriving Repr, DecidableEq

/-- Rust `CryptoData` (payment_method_data.rs, lines 331-334). -/
structure CryptoData where
  pay_currency : Option String
  network : Option String
  deriving Repr, DecidableEq

/-- Rust `RealTimePaymentData` (payment_method_data.rs): content never
inspected here; embedded as an uninterpreted payload. -/
structure RealTimePaymentData where
  payload : String
  deriving Repr, DecidableEq

/-- Rust `UpiCollectData` (payment_method_data.rs, lines 345-347). -/
structure UpiCollectData where
  vpa_id : Option String
  deriving Repr, DecidableEq

/-- Rust `UpiIntentData` (payment_method_data.rs, line 350). -/
structure UpiIntentData where
  deriving Repr, DecidableEq

/-- Rust `UpiData` (payment_method_data.rs, lines 338-341). -/
inductive UpiData where
  | UpiCollect (d : UpiCollectData)
  | UpiIntent (d : UpiIntentData)
  deriving Repr, DecidableEq

/-- Rust `BoletoVoucherData` (payment_method_data.rs, lines 372-375). -/
structure BoletoVoucherData where
  social_security_number : Option String
  deriving Repr, DecidableEq

/-- Rust `AlfamartVoucherData` (payment_method_data.rs, line 378): empty. -/
structure AlfamartVoucherData where
  deriving Repr, DecidableEq

/-- Rust `IndomaretVoucherData` (payment_method_data.rs, line 381): empty. -/
structure IndomaretVoucherData where
  deriving Repr, DecidableEq

/-- Rust `JCSVoucherData` (payment_method_data.rs, line 384): empty. -/
structure JCSVoucherData where
  deriving Repr, DecidableEq

/-- Rust domain `VoucherData` (payment_method_data.rs, lines 354-369). -/
inductive VoucherData where
  | Boleto (d : BoletoVoucherData)
  | Efecty
  | PagoEfectivo
  | RedCompra
  | RedPagos
  | Alfamart (d : AlfamartVoucherData)
  | Indomaret (d : IndomaretVoucherData)
  | Oxxo
  | SevenEleven (d : JCSVoucherData)
  | Lawson (d : JCSVoucherData)
  | MiniStop (d : JCSVoucherData)
  | FamilyMart (d : JCSVoucherData)
  | Seicomart (d : JCSVoucherData)
  | PayEasy (d : JCSVoucherData)
  deriving Repr, DecidableEq

/-- Rust `GiftCardDetails` (payment_method_data.rs): the Givex number/cvc pair. -/
structure GiftCardDetails where
  number : String
  cvc : String
  deriving Repr, DecidableEq

/-- Rust `GiftCardData` (payment_method_data.rs). -/
inductive GiftCardData where
  | Givex (d : GiftCardDetails)
  | PaySafeCard
  deriving Repr, DecidableEq

/-- Rust `CardToken` (payment_method_data.rs, lines 404-410). -/
structure CardToken where
  card_holder_name : Option String
  card_cvc : Option String
  deriving Repr, DecidableEq

/-- Rust `OpenBankingData` (payment_method_data.rs, lines 325-327). -/
inductive OpenBankingData where
  | OpenBankingPIS
  deriving Repr, DecidableEq

/-- Modelled from the spec: `common_enums::PaymentMethod` (the common_enums
crate is not under src/), the category enumeration whose variants are named
one-for-one by `get_payment_method`. -/
inductive PaymentMethod where
  | Card
  | CardRedirect
  | Wallet
  | PayLater
  | BankRedirect
  | BankDebit
  | BankTransfer
  | Crypto
  | Reward
  | RealTimePayment
  | Upi
  | Voucher
  | GiftCard
  | OpenBanking
  deriving Repr, DecidableEq

/-- Rust domain `PaymentMethodData` (payment_method_data.rs, lines 8-26);
boxed payloads embedded unboxed. -/
inductive PaymentMethodData where
  | Card (d : Card)
  | CardRedirect (d : CardRedirectData)
  | Wallet (d : WalletData)
  | PayLater (d : PayLaterData)
  | BankRedirect (d : BankRedirectData)
  | BankDebit (d : BankDebitData)
  | BankTransfer (d : BankTransferData)
  | Crypto (d : CryptoData)
  | MandatePayment
  | Reward
  | RealTimePayment (d : RealTimePaymentData)
  | Upi (d : UpiData)
  | Voucher (d : VoucherData)
  | GiftCard (d : GiftCardData)
  | CardToken (d : CardToken)
  | OpenBanking (d : OpenBankingData)
  deriving Repr, DecidableEq

/-- Rust `PaymentMethodData::get_payment_method`
(payment_method_data.rs, lines 34-54). -/
def PaymentMethodData.get_payment_method :
    PaymentMethodData → Option PaymentMethod
  | .Card _ => some PaymentMethod.Card
  | .CardRedirect _ => some PaymentMethod.CardRedirect
  | .Wallet _ => some PaymentMethod.Wallet
  | .PayLater _ => some PaymentMethod.PayLater
  | .BankRedirect _ => some PaymentMethod.BankRedirect
  | .BankDebit _ => some PaymentMethod.BankDebit
  | .BankTransfer _ => some PaymentMethod.BankTransfer
  | .Crypto _ => some PaymentMethod.Crypto
  | .Reward => some PaymentMethod.Reward
  | .RealTimePayment _ => some PaymentMethod.RealTimePayment
  | .Upi _ => some PaymentMethod.Upi
  | .Voucher _ => some PaymentMethod.Voucher
  | .GiftCard _ => some PaymentMethod.GiftCard
  | .OpenBanking _ => some PaymentMethod.OpenBanking
  | .CardToken _ => none
  | .MandatePayment => none

namespace api_models

/-- Public API `api_models::payments::BoletoVoucherData` (the api_models crate
is not under src/; the conversion in src/ reads its
`social_security_number`). -/
structure BoletoVoucherData where
  social_security_number : Option String
  deriving Repr, DecidableEq

/-- Public API `api_models::payments::AlfamartVoucherData` (not under src/;
the conversion matches it with `_`, so its content is uninterpreted). -/
structure AlfamartVoucherData where
  payload : String
  deriving Repr, DecidableEq

/-- Public API `api_models::payments::IndomaretVoucherData` (not under src/;
matched with `_`, content uninterpreted). -/
structure IndomaretVoucherData where
  payload : String
  deriving Repr, DecidableEq

/-- Public API `api_models::payments::JCSVoucherData` (not under src/; matched
with `_`, content uninterpreted). -/
structure JCSVoucherData where
  payload : String
  deriving Repr, DecidableEq

/-- Public API `api_models::payments::VoucherData`: its variant list is fixed
by the exhaustive `From` impl in payment_method_data.rs, lines 785-814. -/
inductive VoucherData where
  | Boleto (d : BoletoVoucherData)
  | Efecty
  | PagoEfectivo
  | RedCompra
  | RedPagos
  | Alfamart (d : AlfamartVoucherData)
  | Indomaret (d : IndomaretVoucherData)
  | Oxxo
  | SevenEleven (d : JCSVoucherData)
  | Lawson (d : JCSVoucherData)
  | MiniStop (d : JCSVoucherData)
  | FamilyMart (d : JCSVoucherData)
  | Seicomart (d : JCSVoucherData)
  | PayEasy (d : JCSVoucherData)
  deriving Repr, DecidableEq

end api_models

/-- Rust `impl From<api_models::payments::VoucherData> for VoucherData`
(payment_method_data.rs, lines 785-814). -/
def VoucherData.ofApi : api_models.VoucherData → VoucherData
  | .Boleto boleto_data =>
      .Boleto { social_security_number := boleto_data.social_security_number }
  | .Alfamart _ => .Alfamart {}
  | .Indomaret _ => .Indomaret {}
  | .SevenEleven _ | .Lawson _ | .MiniStop _ | .FamilyMart _ | .Seicomart _
  | .PayEasy _ => .SevenEleven {}
  | .Efecty => .Efecty
  | .PagoEfectivo => .PagoEfectivo
  | .RedCompra => .RedCompra
  | .RedPagos => .RedPagos
  | .Oxxo => .Oxxo

/-- A concrete error entry used by the witness theorems. -/
def sampleErrorDetails : ErrorDetails :=
  { message := "Insufficient Funds"
    extensions := some { legacy_code := some "2001" } }

/-- A concrete pre-existing envelope used by the witness theorems. -/
def sampleEnvelopeP : RouterDataE PaymentsResponseData :=
  { status := AttemptStatus.Started
    response := Except.error { code := "c0", message := "m0", reason := none, status_code := 0 }
    request := "request"
    auth := "auth"
    connector_meta_data := some "meta" }

/-- A concrete auth wire response carrying an error list, with its envelope. -/
def sampleErrItemAuth : ResponseRouterData BraintreeAuthResponse PaymentsResponseData :=
  { response := { data := none, errors := some [sampleErrorDetails] }
    data := sampleEnvelopeP
    http_code := 402 }

/-- The envelope the auth parser returns on `sampleErrItemAuth`. -/
def sampleErrOutAuth : RouterDataE PaymentsResponseData :=
  { sampleEnvelopeP with
    response := Except.error (build_error_response [sampleErrorDetails] 402) }

/-- The request the authorize builder produces for the witness inputs. -/
def sampleChargeRequest : BraintreePaymentsRequest :=
  { query := CHARGE_CREDIT_CARD_QUERY
    «variables» :=
      { input :=
          { payment_method_id := "tok"
            transaction := { amount := "10.00", merchant_account_id := "macc" } } } }

/-- C1: the Braintree payment status normalization is a total function over
the 13-value status enumeration mapping Settling/Settled to Charged,
AuthorizedExpired to AuthorizationFailed (not Failure), Failed /
GatewayRejected / ProcessorDeclined / SettlementDeclined to Failure,
Authorized to Authorized, Voided to Voided, and each of the four statuses
with no explicit rule (Authorizing, SettlementPending, SettlementConfirmed,
SubmittedForSettlement) to Pending; being a total Lean function it never
fails or panics. -/
theorem claim_C1_payment_status_normalization :
    AttemptStatus.ofBraintreePaymentStatus .Settling = .Charged ∧
    AttemptStatus.ofBraintreePaymentStatus .Settled = .Charged ∧
    AttemptStatus.ofBraintreePaymentStatus .AuthorizedExpired = .AuthorizationFailed ∧
    AttemptStatus.ofBraintreePaymentStatus .AuthorizedExpired ≠ .Failure ∧
    AttemptStatus.ofBraintreePaymentStatus .Failed = .Failure ∧
    AttemptStatus.ofBraintreePaymentStatus .GatewayRejected = .Failure ∧
    AttemptStatus.ofBraintreePaymentStatus .ProcessorDeclined = .Failure ∧
    AttemptStatus.ofBraintreePaymentStatus .SettlementDeclined = .Failure ∧
    AttemptStatus.ofBraintreePaymentStatus .Authorized = .Authorized ∧
    AttemptStatus.ofBraintreePaymentStatus .Voided = .Voided ∧
    AttemptStatus.ofBraintreePaymentStatus .Authorizing = .Pending ∧
    AttemptStatus.ofBraintreePaymentStatus .SettlementPending = .Pending ∧
    AttemptStatus.ofBraintreePaymentStatus .SettlementConfirmed = .Pending ∧
    AttemptStatus.ofBraintreePaymentStatus .SubmittedForSettlement = .Pending := by
  decide

/-- C6: `get_payment_method` returns exactly the category matching each
variant's discriminant, and `None` exactly for `CardToken` and
`MandatePayment`. -/
theorem claim_C6_payment_method_category :
    (∀ d, (PaymentMethodData.Card d).get_payment_method = some PaymentMethod.Card) ∧
    (∀ d, (PaymentMethodData.CardRedirect d).get_payment_method
        = some PaymentMethod.CardRedirect) ∧
    (∀ d, (PaymentMethodData.Wallet d).get_payment_method = some PaymentMethod.Wallet) ∧
    (∀ d, (PaymentMethodData.PayLater d).get_payment_method = some PaymentMethod.PayLater) ∧
    (∀ d, (PaymentMethodData.BankRedirect d).get_payment_method
        = some PaymentMethod.BankRedirect) ∧
    (∀ d, (PaymentMethodData.BankDebit d).get_payment_method
        = some PaymentMethod.BankDebit) ∧
    (∀ d, (PaymentMethodData.BankTransfer d).get_payment_method
        = some PaymentMethod.BankTransfer) ∧
    (∀ d, (PaymentMethodData.Crypto d).get_payment_method = some PaymentMethod.Crypto) ∧
    PaymentMethodData.Reward.get_payment_method = some PaymentMethod.Reward ∧
    (∀ d, (PaymentMethodData.RealTimePayment d).get_payment_method
        = some PaymentMethod.RealTimePayment) ∧
    (∀ d, (PaymentMethodData.Upi d).get_payment_method = some PaymentMethod.Upi) ∧
    (∀ d, (PaymentMethodData.Voucher d).get_payment_method = some PaymentMethod.Voucher) ∧
    (∀ d, (PaymentMethodData.GiftCard d).get_payment_method = some PaymentMethod.GiftCard) ∧
    (∀ d, (PaymentMethodData.OpenBanking d).get_payment_method
        = some PaymentMethod.OpenBanking) ∧
    (∀ d, (PaymentMethodData.CardToken d).get_payment_method = none) ∧
    PaymentMethodData.MandatePayment.get_payment_method = none := by
  refine ⟨fun _ => rfl, fun _ => rfl, fun _ => rfl, fun _ => rfl, fun _ => rfl,
    fun _ => rfl, fun _ => rfl, fun _ => rfl, rfl, fun _ => rfl, fun _ => rfl,
    fun _ => rfl, fun _ => rfl, fun _ => rfl, fun _ => rfl, rfl⟩

/-- C10: the public-API-to-domain `VoucherData` conversion collapses the six
distinct public variants SevenEleven, Lawson, MiniStop, FamilyMart, Seicomart
and PayEasy onto the single domain variant `SevenEleven` with an empty
`JCSVoucherData` payload, hence is not injective: two distinct public inputs
yield equal domain values. -/
theorem claim_C10_voucher_conversion_not_injective :
    (∀ d, VoucherData.ofApi (api_models.VoucherData.SevenEleven d)
        = VoucherData.SevenEleven {}) ∧
    (∀ d, VoucherData.ofApi (api_models.VoucherData.Lawson d)
        = VoucherData.SevenEleven {}) ∧
    (∀ d, VoucherData.ofApi (api_models.VoucherData.MiniStop d)
        = VoucherData.SevenEleven {}) ∧
    (∀ d, VoucherData.ofApi (api_models.VoucherData.FamilyMart d)
        = VoucherData.SevenEleven {}) ∧
    (∀ d, VoucherData.ofApi (api_models.VoucherData.Seicomart d)
        = VoucherData.SevenEleven {}) ∧
    (∀ d, VoucherData.ofApi (api_models.VoucherData.PayEasy d)
        = VoucherData.SevenEleven {}) ∧
    api_models.VoucherData.SevenEleven { payload := "" }
      ≠ api_models.VoucherData.Lawson { payload := "" } ∧
    VoucherData.ofApi (api_models.VoucherData.SevenEleven { payload := "" })
      = VoucherData.ofApi (api_models.VoucherData.Lawson { payload := "" }) := by
  refine ⟨fun _ => rfl, fun _ => rfl, fun _ => rfl, fun _ => rfl, fun _ => rfl,
    fun _ => rfl, by decide, rfl⟩

/-- C8: a connector account using TemporaryAuth is never Active — requesting
Active with TemporaryAuth is an InvalidRequestData error; with TemporaryAuth
and no requested status the status resolves to Inactive (and an unspecified
disabled flag to `disabled = true`); enabling (`disabled = false`) a
connector whose resolved status is Inactive is rejected. -/
theorem claim_C8_temporary_auth_never_active :
    (∀ (disabled : Option Bool) (current_status : ConnectorStatus),
      validate_status_and_disabled (some ConnectorStatus.Active) disabled
          ConnectorAuthType.TemporaryAuth current_status
        = Except.error (ApiErrorResponse.InvalidRequestData
            "Connector status cannot be active when using TemporaryAuth")) ∧
    (∀ current_status,
      validate_status_and_disabled none none ConnectorAuthType.TemporaryAuth current_status
        = Except.ok (ConnectorStatus.Inactive, some true)) ∧
    (∀ current_status,
      validate_status_and_disabled none (some true) ConnectorAuthType.TemporaryAuth
          current_status
        = Except.ok (ConnectorStatus.Inactive, some true)) ∧
    (∀ current_status,
      validate_status_and_disabled none (some false) ConnectorAuthType.TemporaryAuth
          current_status
        = Except.error (ApiErrorResponse.InvalidRequestData
            "Connector cannot be enabled when connector_status is inactive or when using TemporaryAuth")) ∧
    (∀ (auth : ConnectorAuthType) (current_status : ConnectorStatus),
      validate_status_and_disabled (some ConnectorStatus.Inactive) (some false) auth
          current_status
        = Except.error (ApiErrorResponse.InvalidRequestData
            "Connector cannot be enabled when connector_status is inactive or when using TemporaryAuth")) ∧
    (∀ (auth : ConnectorAuthType) (current_status : ConnectorStatus),
      validate_status_and_disabled (some ConnectorStatus.Inactive) none auth current_status
        = Except.ok (ConnectorStatus.Inactive, some true)) := by
  refine ⟨fun d cs => ?_, fun cs => rfl, fun cs => rfl, fun cs => rfl,
    fun auth cs => ?_, fun auth cs => ?_⟩
  · cases d <;> rfl
  · cases auth <;> rfl
  · cases auth <;> rfl

/-- C3: an error-free sync response whose nested search structure is present
but whose edges list is empty fails with MissingConnectorTransactionID
(payment sync) / MissingConnectorRefundID (refund sync); when any enclosing
optional level (`data`, `search`, `transactions`/`refunds`) is absent, the
parsers instead fail with the distinct generic
ResponseDeserializationFailed. -/
theorem claim_C3_empty_lookup_distinct_errors :
    (∀ (env : RouterDataE PaymentsResponseData) (hc : Nat),
      braintreePSyncTryFrom
          { response :=
              { data := some { search := some { transactions := some { edges := [] } } }
                errors := none }
            data := env
            http_code := hc }
        = Except.error ConnectorError.MissingConnectorTransactionID) ∧
    (∀ (env : RouterDataE PaymentsResponseData) (hc : Nat),
      braintreePSyncTryFrom
          { response := { data := none, errors := none }, data := env, http_code := hc }
        = Except.error ConnectorError.ResponseDeserializationFailed) ∧
    (∀ (env : RouterDataE PaymentsResponseData) (hc : Nat),
      braintreePSyncTryFrom
          { response := { data := some { search := none }, errors := none }
            data := env
            http_code := hc }
        = Except.error ConnectorError.ResponseDeserializationFailed) ∧
    (∀ (env : RouterDataE PaymentsResponseData) (hc : Nat),
      braintreePSyncTryFrom
          { response := { data := some { search := some { transactions := none } }
                          errors := none }
            data := env
            http_code := hc }
        = Except.error ConnectorError.ResponseDeserializationFailed) ∧
    (∀ (env : RouterDataE RefundsResponseData) (hc : Nat),
      braintreeRSyncTryFrom
          { response :=
              { data := some { search := some { refunds := some { edges := [] } } }
                errors := none }
            data := env
            http_code := hc }
        = Except.error ConnectorError.MissingConnectorRefundID) ∧
    (∀ (env : RouterDataE RefundsResponseData) (hc : Nat),
      braintreeRSyncTryFrom
          { response := { data := none, errors := none }, data := env, http_code := hc }
        = Except.error ConnectorError.ResponseDeserializationFailed) ∧
    (∀ (env : RouterDataE RefundsResponseData) (hc : Nat),
      braintreeRSyncTryFrom
          { response := { data := some { search := none }, errors := none }
            data := env
            http_code := hc }
        = Except.error ConnectorError.ResponseDeserializationFailed) ∧
    (∀ (env : RouterDataE RefundsResponseData) (hc : Nat),
      braintreeRSyncTryFrom
          { response := { data := some { search := some { refunds := none } }
                          errors := none }
            data := env
            http_code := hc }
        = Except.error ConnectorError.ResponseDeserializationFailed) := by
  exact ⟨fun _ _ => rfl, fun _ _ => rfl, fun _ _ => rfl, fun _ _ => rfl,
    fun _ _ => rfl, fun _ _ => rfl, fun _ _ => rfl, fun _ _ => rfl⟩

/-- C4: whenever the authorize request builder succeeds, its query string was
chosen by a two-way branch on the auto-capture flag — the `chargeCreditCard`
mutation when `is_auto_capture()` returned true and the `authorizeCreditCard`
mutation when it returned false; no other query text is produced. -/
theorem claim_C4_authorize_query_two_way_branch
    (metadata : Except ConnectorError BraintreeMeta)
    (validate_currency : Except ConnectorError Unit)
    (is_auto_capture : Except ConnectorError Bool)
    (payment_method_token : Except ConnectorError String)
    (amount_base_unit : Except ConnectorError String)
    (req : BraintreePaymentsRequest)
    (h : braintreePaymentsRequestTryFrom metadata validate_currency is_auto_capture
          payment_method_token amount_base_unit = Except.ok req) :
    (is_auto_capture = Except.ok true ∧ req.query = CHARGE_CREDIT_CARD_QUERY) ∨
    (is_auto_capture = Except.ok false ∧ req.query = AUTHORIZE_CREDIT_CARD_QUERY) := by
  cases metadata with
  | error e => exact Except.noConfusion h
  | ok m =>
    cases validate_currency with
    | error e => exact Except.noConfusion h
    | ok u =>
      cases is_auto_capture with
      | error e => exact Except.noConfusion h
      | ok b =>
        cases payment_method_token with
        | error e => exact Except.noConfusion h
        | ok tok =>
          cases amount_base_unit with
          | error e => exact Except.noConfusion h
          | ok amt =>
            cases m with
            | mk mid mcc =>
              cases mid with
              | none => cases b <;> exact Except.noConfusion h
              | some v =>
                cases b with
                | true =>
                    left
                    injection h with h2
                    subst h2
                    exact ⟨rfl, rfl⟩
                | false =>
                    right
                    injection h with h2
                    subst h2
                    exact ⟨rfl, rfl⟩

/-- C5: when the connector metadata deserializes into `BraintreeMeta` but
carries no `merchant_account_id`, both the authorize and the refund request
builders fail with `MissingRequiredField "merchant_account_id"` (whenever the
remaining helper calls succeed), and neither ever produces a wire request,
whatever the other helper outcomes are. -/
theorem claim_C5_missing_merchant_account_id :
    (∀ (mcc : Option Currency) (b : Bool) (tok amt : String),
      braintreePaymentsRequestTryFrom
          (Except.ok { merchant_account_id := none, merchant_config_currency := mcc })
          (Except.ok ()) (Except.ok b) (Except.ok tok) (Except.ok amt)
        = Except.error (ConnectorError.MissingRequiredField "merchant_account_id")) ∧
    (∀ (mcc : Option Currency) (txid amt : String),
      braintreeRefundRequestTryFrom
          (Except.ok { merchant_account_id := none, merchant_config_currency := mcc })
          (Except.ok ()) txid (Except.ok amt)
        = Except.error (ConnectorError.MissingRequiredField "merchant_account_id")) ∧
    (∀ (mcc : Option Currency) (validate_currency : Except ConnectorError Unit)
        (is_auto_capture : Except ConnectorError Bool)
        (payment_method_token amount_base_unit : Except ConnectorError String),
      (braintreePaymentsRequestTryFrom
          (Except.ok { merchant_account_id := none, merchant_config_currency := mcc })
          validate_currency is_auto_capture payment_method_token
          amount_base_unit).toOption = none) ∧
    (∀ (mcc : Option Currency) (validate_currency : Except ConnectorError Unit)
        (txid : String) (amount_base_unit : Except ConnectorError String),
      (braintreeRefundRequestTryFrom
          (Except.ok { merchant_account_id := none, merchant_config_currency := mcc })
          validate_currency txid amount_base_unit).toOption = none) := by
  refine ⟨fun mcc b tok amt => ?_, fun mcc txid amt => rfl,
    fun mcc vc iac tok amt => ?_, fun mcc vc txid amt => ?_⟩
  · cases b <;> rfl
  · cases vc with
    | error e => rfl
    | ok u =>
      cases iac with
      | error e => rfl
      | ok b =>
        cases tok with
        | error e => cases b <;> rfl
        | ok t =>
          cases amt with
          | error e => cases b <;> rfl
          | ok a => cases b <;> rfl
  · cases vc with
    | error e => rfl
    | ok u =>
      cases amt with
      | error e => rfl
      | ok a => rfl

/-- C9: `validate_connector_auth_type` accepts `NoKey` and `TemporaryAuth`
unconditionally; for `HeaderKey`, `BodyKey`, `SignatureKey` and `MultiAuthKey`
it returns an `InvalidDataFormat` error naming the first credential field
that is empty after trimming and succeeds when none is; for
`CurrencyAuthKey` it fails exactly when the per-currency key map is empty;
and `CertificateAuth` succeeds exactly when the certificate and private key
parse into a valid identity pair. -/
theorem claim_C9_connector_auth_validation :
    (∀ ci : String → String → Bool,
      validate_connector_auth_type ci ConnectorAuthType.TemporaryAuth = Except.ok () ∧
      validate_connector_auth_type ci ConnectorAuthType.NoKey = Except.ok ()) ∧
    (∀ (ci : String → String → Bool) (api_key : String),
      validate_connector_auth_type ci (ConnectorAuthType.HeaderKey api_key)
        = if api_key.trim.isEmpty then
            Except.error (ApiErrorResponse.InvalidDataFormat
              "connector_account_details.api_key" "a non empty String")
          else Except.ok ()) ∧
    (∀ (ci : String → String → Bool) (api_key key1 : String),
      validate_connector_auth_type ci (ConnectorAuthType.BodyKey api_key key1)
        = if api_key.trim.isEmpty then
            Except.error (ApiErrorResponse.InvalidDataFormat
              "connector_account_details.api_key" "a non empty String")
          else if key1.trim.isEmpty then
            Except.error (ApiErrorResponse.InvalidDataFormat
              "connector_account_details.key1" "a non empty String")
          else Except.ok ()) ∧
    (∀ (ci : String → String → Bool) (api_key key1 api_secret : String),
      validate_connector_auth_type ci
          (ConnectorAuthType.SignatureKey api_key key1 api_secret)
        = if api_key.trim.isEmpty then
            Except.error (ApiErrorResponse.InvalidDataFormat
              "connector_account_details.api_key" "a non empty String")
          else if key1.trim.isEmpty then
            Except.error (ApiErrorResponse.InvalidDataFormat
              "connector_account_details.key1" "a non empty String")
          else if api_secret.trim.isEmpty then
            Except.error (ApiErrorResponse.InvalidDataFormat
              "connector_account_details.api_secret" "a non empty String")
          else Except.ok ()) ∧
    (∀ (ci : String → String → Bool) (api_key key1 api_secret key2 : String),
      validate_connector_auth_type ci
          (ConnectorAuthType.MultiAuthKey api_key key1 api_secret key2)
        = if api_key.trim.isEmpty then
            Except.error (ApiErrorResponse.InvalidDataFormat
              "connector_account_details.api_key" "a non empty String")
          else if key1.trim.isEmpty then
            Except.error (ApiErrorResponse.InvalidDataFormat
              "connector_account_details.key1" "a non empty String")
          else if api_secret.trim.isEmpty then
            Except.error (ApiErrorResponse.InvalidDataFormat
              "connector_account_details.api_secret" "a non empty String")
          else if key2.trim.isEmpty then
            Except.error (ApiErrorResponse.InvalidDataFormat
              "connector_account_details.key2" "a non empty String")
          else Except.ok ()) ∧
    (∀ (ci : String → String → Bool) (auth_key_map : List (Currency × String)),
      validate_connector_auth_type ci (ConnectorAuthType.CurrencyAuthKey auth_key_map)
          = Except.ok () ↔ auth_key_map ≠ []) ∧
    (∀ ci : String → String → Bool,
      validate_connector_auth_type ci (ConnectorAuthType.CurrencyAuthKey [])
        = Except.error (ApiErrorResponse.InvalidDataFormat
            "connector_account_details.auth_key_map" "a non empty map")) ∧
    (∀ (ci : String → String → Bool) (certificate private_key : String),
      validate_connector_auth_type ci
          (ConnectorAuthType.CertificateAuth certificate private_key)
        = if ci certificate private_key then Except.ok ()
          else Except.error (ApiErrorResponse.InvalidDataFormat
            "connector_account_details.certificate or connector_account_details.private_key"
            "a valid base64 encoded string of PEM encoded Certificate and Private Key")) := by
  refine ⟨fun ci => ⟨rfl, rfl⟩, fun ci k => ?_, fun ci a k1 => ?_,
    fun ci a k1 s => ?_, fun ci a k1 s k2 => ?_, fun ci m => ?_, fun ci => rfl,
    fun ci c k => ?_⟩
  · cases h : k.trim.isEmpty <;>
      simp [validate_connector_auth_type, validate_non_empty_field, h]
  · cases h1 : a.trim.isEmpty <;> cases h2 : k1.trim.isEmpty <;>
      simp [validate_connector_auth_type, validate_non_empty_field, h1, h2]
  · cases h1 : a.trim.isEmpty <;> cases h2 : k1.trim.isEmpty <;>
      cases h3 : s.trim.isEmpty <;>
      simp [validate_connector_auth_type, validate_non_empty_field, h1, h2, h3]
  · cases h1 : a.trim.isEmpty <;> cases h2 : k1.trim.isEmpty <;>
      cases h3 : s.trim.isEmpty <;> cases h4 : k2.trim.isEmpty <;>
      simp [validate_connector_auth_type, validate_non_empty_field, h1, h2, h3, h4]
  · cases m with
    | nil => simp [validate_connector_auth_type]
    | cons p l => simp [validate_connector_auth_type]
  · cases h : ci c k <;>
      simp [validate_connector_auth_type, h]

/-- C2: for every wire response whose errors field is present, each of the
eight Braintree inbound parsers returns the envelope with `response` set to
the `ErrorResponse` built by `build_error_response` from the error list and
the transport HTTP status — never from the data payload — and that
`ErrorResponse` takes its code from the first entry's
`extensions.legacy_code` and its message from the first entry's `message`,
substituting the fixed sentinels when absent, leaves `reason` unset, and has
`status_code` equal to the transport HTTP status code. -/
theorem claim_C2_error_precedence :
    (∀ (item : ResponseRouterData BraintreeAuthResponse PaymentsResponseData)
        (errs : List ErrorDetails), item.response.errors = some errs →
      braintreeAuthTryFrom item
        = Except.ok { item.data with
            response := Except.error (build_error_response errs item.http_code) }) ∧
    (∀ (item : ResponseRouterData BraintreePaymentsResponse PaymentsResponseData)
        (errs : List ErrorDetails), item.response.errors = some errs →
      braintreePaymentsTryFrom item
        = Except.ok { item.data with
            response := Except.error (build_error_response errs item.http_code) }) ∧
    (∀ (item : ResponseRouterData BraintreeRefundResponse RefundsResponseData)
        (errs : List ErrorDetails), item.response.errors = some errs →
      braintreeRefundExecuteTryFrom item
        = Except.ok { item.data with
            response := Except.error (build_error_response errs item.http_code) }) ∧
    (∀ (item : ResponseRouterData BraintreeRSyncResponse RefundsResponseData)
        (errs : List ErrorDetails), item.response.errors = some errs →
      braintreeRSyncTryFrom item
        = Except.ok { item.data with
            response := Except.error (build_error_response errs item.http_code) }) ∧
    (∀ (item : ResponseRouterData BraintreeTokenResponse PaymentsResponseData)
        (errs : List ErrorDetails), item.response.errors = some errs →
      braintreeTokenTryFrom item
        = Except.ok { item.data with
            response := Except.error (build_error_response errs item.http_code) }) ∧
    (∀ (item : ResponseRouterData BraintreeCaptureResponse PaymentsResponseData)
        (errs : List ErrorDetails), item.response.errors = some errs →
      braintreeCaptureTryFrom item
        = Except.ok { item.data with
            response := Except.error (build_error_response errs item.http_code) }) ∧
    (∀ (item : ResponseRouterData BraintreeCancelResponse PaymentsResponseData)
        (errs : List ErrorDetails), item.response.errors = some errs →
      braintreeCancelTryFrom item
        = Except.ok { item.data with
            response := Except.error (build_error_response errs item.http_code) }) ∧
    (∀ (item : ResponseRouterData BraintreePSyncResponse PaymentsResponseData)
        (errs : List ErrorDetails), item.response.errors = some errs →
      braintreePSyncTryFrom item
        = Except.ok { item.data with
            response := Except.error (build_error_response errs item.http_code) }) ∧
    (∀ (errs : List ErrorDetails) (hc : Nat),
      (build_error_response errs hc).status_code = hc ∧
      (build_error_response errs hc).reason = none) ∧
    (∀ (e : ErrorDetails) (rest : List ErrorDetails) (hc : Nat),
      (build_error_response (e :: rest) hc).code
          = (e.extensions.bind fun x => x.legacy_code).getD NO_ERROR_CODE ∧
      (build_error_response (e :: rest) hc).message = e.message) ∧
    (∀ hc : Nat,
      build_error_response [] hc
        = { code := NO_ERROR_CODE, message := NO_ERROR_MESSAGE, reason := none,
            status_code := hc }) := by
  refine ⟨fun item errs h => ?_, fun item errs h => ?_, fun item errs h => ?_,
    fun item errs h => ?_, fun item errs h => ?_, fun item errs h => ?_,
    fun item errs h => ?_, fun item errs h => ?_,
    fun errs hc => ⟨rfl, rfl⟩, fun e rest hc => ⟨rfl, rfl⟩, fun hc => rfl⟩
  · simp only [braintreeAuthTryFrom, h]
  · simp only [braintreePaymentsTryFrom, h]
  · simp only [braintreeRefundExecuteTryFrom, h]
  · simp only [braintreeRSyncTryFrom, h]
  · simp only [braintreeTokenTryFrom, h]
  · simp only [braintreeCaptureTryFrom, h]
  · simp only [braintreeCancelTryFrom, h]
  · simp only [braintreePSyncTryFrom, h]

/-- C7: every Braintree inbound parser updates the envelope atomically — the
returned envelope agrees with the input envelope on every field other than
`response` and `status` (here: `request`, `auth`, `connector_meta_data`), and
on the connector-error branch (errors field present) the `status` too is left
as it was while `response` is the normalized `ErrorResponse`. -/
theorem claim_C7_envelope_frame :
    (∀ (item : ResponseRouterData BraintreeAuthResponse PaymentsResponseData)
        (out : RouterDataE PaymentsResponseData),
      braintreeAuthTryFrom item = Except.ok out →
      out.request = item.data.request ∧ out.auth = item.data.auth ∧
      out.connector_meta_data = item.data.connector_meta_data ∧
      ∀ errs, item.response.errors = some errs →
        out.status = item.data.status ∧
        out.response = Except.error (build_error_response errs item.http_code)) ∧
    (∀ (item : ResponseRouterData BraintreePaymentsResponse PaymentsResponseData)
        (out : RouterDataE PaymentsResponseData),
      braintreePaymentsTryFrom item = Except.ok out →
      out.request = item.data.request ∧ out.auth = item.data.auth ∧
      out.connector_meta_data = item.data.connector_meta_data ∧
      ∀ errs, item.response.errors = some errs →
        out.status = item.data.status ∧
        out.response = Except.error (build_error_response errs item.http_code)) ∧
    (∀ (item : ResponseRouterData BraintreeRefundResponse RefundsResponseData)
        (out : RouterDataE RefundsResponseData),
      braintreeRefundExecuteTryFrom item = Except.ok out →
      out.request = item.data.request ∧ out.auth = item.data.auth ∧
      out.connector_meta_data = item.data.connector_meta_data ∧
      ∀ errs, item.response.errors = some errs →
        out.status = item.data.status ∧
        out.response = Except.error (build_error_response errs item.http_code)) ∧
    (∀ (item : ResponseRouterData BraintreeRSyncResponse RefundsResponseData)
        (out : RouterDataE RefundsResponseData),
      braintreeRSyncTryFrom item = Except.ok out →
      out.request = item.data.request ∧ out.auth = item.data.auth ∧
      out.connector_meta_data = item.data.connector_meta_data ∧
      ∀ errs, item.response.errors = some errs →
        out.status = item.data.status ∧
        out.response = Except.error (build_error_response errs item.http_code)) ∧
    (∀ (item : ResponseRouterData BraintreeTokenResponse PaymentsResponseData)
        (out : RouterDataE PaymentsResponseData),
      braintreeTokenTryFrom item = Except.ok out →
      out.request = item.data.request ∧ out.auth = item.data.auth ∧
      out.connector_meta_data = item.data.connector_meta_data ∧
      ∀ errs, item.response.errors = some errs →
        out.status = item.data.status ∧
        out.response = Except.error (build_error_response errs item.http_code)) ∧
    (∀ (item : ResponseRouterData BraintreeCaptureResponse PaymentsResponseData)
        (out : RouterDataE PaymentsResponseData),
      braintreeCaptureTryFrom item = Except.ok out →
      out.request = item.data.request ∧ out.auth = item.data.auth ∧
      out.connector_meta_data = item.data.connector_meta_data ∧
      ∀ errs, item.response.errors = some errs →
        out.status = item.data.status ∧
        out.response = Except.error (build_error_response errs item.http_code)) ∧
    (∀ (item : ResponseRouterData BraintreeCancelResponse PaymentsResponseData)
        (out : RouterDataE PaymentsResponseData),
      braintreeCancelTryFrom item = Except.ok out →
      out.request = item.data.request ∧ out.auth = item.data.auth ∧
      out.connector_meta_data = item.data.connector_meta_data ∧
      ∀ errs, item.response.errors = some errs →
        out.status = item.data.status ∧
        out.response = Except.error (build_error_response errs item.http_code)) ∧
    (∀ (item : ResponseRouterData BraintreePSyncResponse PaymentsResponseData)
        (out : RouterDataE PaymentsResponseData),
      braintreePSyncTryFrom item = Except.ok out →
      out.request = item.data.request ∧ out.auth = item.data.auth ∧
      out.connector_meta_data = item.data.connector_meta_data ∧
      ∀ errs, item.response.errors = some errs →
        out.status = item.data.status ∧
        out.response = Except.error (build_error_response errs item.http_code)) := by
  refine ⟨?_, ?_, ?_, ?_, ?_, ?_, ?_, ?_⟩ <;>
  · intro item out h
    cases herr : item.response.errors with
    | some errs0 =>
      simp only [braintreeAuthTryFrom, braintreePaymentsTryFrom,
        braintreeRefundExecuteTryFrom, braintreeRSyncTryFrom,
        braintreeTokenTryFrom, braintreeCaptureTryFrom, braintreeCancelTryFrom,
        braintreePSyncTryFrom, herr] at h
      injection h with h2
      subst h2
      refine ⟨rfl, rfl, rfl, fun errs he => ?_⟩
      injection he with he2
      subst he2
      exact ⟨rfl, rfl⟩
    | none =>
      simp only [braintreeAuthTryFrom, braintreePaymentsTryFrom,
        braintreeRefundExecuteTryFrom, braintreeRSyncTryFrom,
        braintreeTokenTryFrom, braintreeCaptureTryFrom, braintreeCancelTryFrom,
        braintreePSyncTryFrom, herr] at h
      repeat' split at h
      all_goals first
        | exact Except.noConfusion h
        | (injection h with h2; subst h2;
           exact ⟨rfl, rfl, rfl, fun errs he => Option.noConfusion he⟩)

/-- Witness for C2: the auth parser applied to a concrete wire response whose
errors field holds one entry returns the envelope with the normalized error
response. -/
theorem claim_C2_error_precedence_witness :
    braintreeAuthTryFrom sampleErrItemAuth
      = Except.ok { sampleErrItemAuth.data with
          response := Except.error
            (build_error_response [sampleErrorDetails] sampleErrItemAuth.http_code) } :=
  claim_C2_error_precedence.1 sampleErrItemAuth [sampleErrorDetails] rfl

/-- Witness for C4: at concrete helper outcomes with auto-capture true, the
built request carries the `chargeCreditCard` query. -/
theorem claim_C4_authorize_query_two_way_branch_witness :
    ((Except.ok true : Except ConnectorError Bool) = Except.ok true ∧
      sampleChargeRequest.query = CHARGE_CREDIT_CARD_QUERY) ∨
    ((Except.ok true : Except ConnectorError Bool) = Except.ok false ∧
      sampleChargeRequest.query = AUTHORIZE_CREDIT_CARD_QUERY) :=
  claim_C4_authorize_query_two_way_branch
    (Except.ok { merchant_account_id := some "macc", merchant_config_currency := none })
    (Except.ok ()) (Except.ok true) (Except.ok "tok") (Except.ok "10.00")
    sampleChargeRequest rfl

/-- Witness for C7: on a concrete error-carrying auth response, the returned
envelope keeps `request`, `auth`, `connector_meta_data` and `status`, and
its `response` is the normalized error. -/
theorem claim_C7_envelope_frame_witness :
    sampleErrOutAuth.request = sampleErrItemAuth.data.request ∧
    sampleErrOutAuth.auth = sampleErrItemAuth.data.auth ∧
    sampleErrOutAuth.connector_meta_data = sampleErrItemAuth.data.connector_meta_data ∧
    sampleErrOutAuth.status = sampleErrItemAuth.data.status ∧
    sampleErrOutAuth.response
      = Except.error (build_error_response [sampleErrorDetails] 402) :=
  ⟨(claim_C7_envelope_frame.1 sampleErrItemAuth sampleErrOutAuth rfl).1,
   (claim_C7_envelope_frame.1 sampleErrItemAuth sampleErrOutAuth rfl).2.1,
   (claim_C7_envelope_frame.1 sampleErrItemAuth sampleErrOutAuth rfl).2.2.1,
   ((claim_C7_envelope_frame.1 sampleErrItemAuth sampleErrOutAuth rfl).2.2.2
      [sampleErrorDetails] rfl).1,
   ((claim_C7_envelope_frame.1 sampleErrItemAuth sampleErrOutAuth rfl).2.2.2
      [sampleErrorDetails] rfl).2⟩

end Hyperswitch
